import Mathlib

/-!
# nodeimu: the Node.js binding of RTIMULib (`src/nodeimu.cpp`)

A shallow embedding of the binding layer.  The file `nodeimu.cpp` marshals calls into the
external RTIMULib sensor library and converts its `RTIMU_DATA` records into JavaScript objects.

* JavaScript values are the inductive type `JsValue`; an object is its list of properties in
  insertion order, and `Nan.Set` / `Nan.Get` are property assignment and lookup.
* The sensor library is external.  A device is described by what its next read delivers
  (`RTIMU.sample`, the fields of `RTPressure` and `RTHumidity`); the calls the binding makes
  into the library are recorded as a list of `LibCall`.
* `RTMath::poseFromAccelMag` belongs to the library and is a parameter of every function that
  reaches it.
* The call of `PutMeasurement` in `SensorWorker::HandleOKCallback` passes four arguments, while
  the file defines the function with six parameters; the function that call names is a
  parameter of the asynchronous read, and `PutMeasurementOfRecord` is the instance in which the
  one record of the worker supplies every field.
* The timestamp conversion `0.001 * (double)imuData.timestamp` is carried out in IEEE-754
  binary64 arithmetic (`Double`), followed by the time clipping of a JavaScript `Date`.

The definitions come first, the proofs after them.
-/

namespace Nodeimu

/-! ## JavaScript values -/

/-- The type `RTFLOAT` of RTIMULib (a C `float`).  The binding performs no arithmetic on these
values, it only copies them into JavaScript numbers, a widening that loses nothing; the finite
values are carried as rationals. -/
abbrev RTFLOAT := ℚ

/-- JavaScript values as far as the binding produces or inspects them.  A `date` holds its time
value in epoch milliseconds, `none` being the time value NaN of an invalid date. -/
inductive JsValue where
  | undefined
  | null
  | boolean (b : Bool)
  | number (x : RTFLOAT)
  | string (s : String)
  | date (time : Option Nat)
  | error (name : String) (message : String)
  | object (props : List (String × JsValue))

/-- The properties of a JavaScript object, in insertion order. -/
abbrev JsObject := List (String × JsValue)

/-- Property assignment `Nan::Set(obj, key, value)`: an existing property keeps its place and
takes the new value, a new property is added at the end. -/
def Nan.Set : JsObject → String → JsValue → JsObject
  | [], key, value => [(key, value)]
  | (k, w) :: rest, key, value =>
    if k = key then (k, value) :: rest else (k, w) :: Nan.Set rest key value

/-- Property lookup `obj[key]`; `none` when the object has no such property. -/
def Nan.Get : JsObject → String → Option JsValue
  | [], _ => none
  | (k, w) :: rest, key => if k = key then some w else Nan.Get rest key

/-- The property names of an object, in insertion order. -/
def keys (obj : JsObject) : List String := obj.map Prod.fst

/-- The property names of a value that is an object; no names for any other value. -/
def JsValue.keys : JsValue → List String
  | .object props => Nodeimu.keys props
  | _ => []

/-- Reading `obj[outer][inner]`. -/
def getPath (obj : JsObject) (outer inner : String) : Option JsValue :=
  match Nan.Get obj outer with
  | some (.object props) => Nan.Get props inner
  | _ => none

/-- The test `value->IsBoolean()`. -/
def JsValue.IsBoolean : JsValue → Bool
  | .boolean _ => true
  | _ => false

/-- The conversion `value->BooleanValue()` (JavaScript `ToBoolean`). -/
def JsValue.BooleanValue : JsValue → Bool
  | .undefined => false
  | .null => false
  | .boolean b => b
  | .number x => decide (x ≠ 0)
  | .string s => decide (s ≠ "")
  | .date _ => true
  | .error _ _ => true
  | .object _ => true

/-- How a call of a bound method ends: it returns a value (`undefined` when the method never
sets its return value) or it leaves an exception pending. -/
inductive Completion where
  | returned (v : JsValue)
  | threw (e : JsValue)

/-- A completion is an error result when an exception was thrown or an error object is the
value returned. -/
def Completion.isError : Completion → Bool
  | .threw _ => true
  | .returned (.error _ _) => true
  | .returned _ => false

/-- The exception left pending by `Nan::ThrowTypeError(msg)`. -/
def ThrowTypeError (msg : String) : Completion := .threw (.error "TypeError" msg)

/-! ## IEEE-754 doubles and the time value of a `Date` -/

/-- A non-negative finite binary64 value `m * 2 ^ e`. -/
structure Double where
  m : Nat
  e : Int
deriving DecidableEq, Repr

/-- The search behind `bitLength`: the least `k` at or above the start with `n < 2 ^ k`. -/
def bitLengthAux (n : Nat) : Nat → Nat → Nat
  | 0, k => k
  | fuel + 1, k => if n < 2 ^ k then k else bitLengthAux n fuel (k + 1)

/-- Number of significant bits of `n`: the least `k` with `n < 2 ^ k`. -/
def bitLength (n : Nat) : Nat := bitLengthAux n n 0

/-- The quotient `n / 2 ^ s` rounded to the nearest integer, a tie going to the even one. -/
def roundNearestEven (n s : Nat) : Nat :=
  let q := n / 2 ^ s
  let r := n % 2 ^ s
  if 2 * r < 2 ^ s then q
  else if 2 ^ s < 2 * r then q + 1
  else if q % 2 = 0 then q else q + 1

/-- Rounding of the exact value `m * 2 ^ e` to a double: the significand keeps 53 bits, rounded
to nearest, ties to even (no overflow or underflow in the range the binding reaches). -/
def Double.round (m : Nat) (e : Int) : Double :=
  let s := bitLength m - 53
  { m := roundNearestEven m s, e := e + s }

/-- The conversion `(double)t` of a `uint64_t`. -/
def Double.ofUInt64 (t : Nat) : Double := Double.round t 0

/-- The product `a * b` of two doubles. -/
def Double.mul (a b : Double) : Double := Double.round (a.m * b.m) (a.e + b.e)

/-- The literal `0.001`: the double nearest to 1/1000, `0x3F50624DD2F1A9FC`. -/
def Double.lit_0_001 : Double := { m := 4611686018427388, e := -62 }

/-- Comparison `d <= k` of a double with a whole number. -/
def Double.leNat (d : Double) (k : Nat) : Bool :=
  match d.e with
  | Int.ofNat a => decide (d.m * 2 ^ a ≤ k)
  | Int.negSucc a => decide (d.m ≤ k * 2 ^ (a + 1))

/-- The integer part of a double. -/
def Double.floor (d : Double) : Nat :=
  match d.e with
  | Int.ofNat a => d.m * 2 ^ a
  | Int.negSucc a => d.m / 2 ^ (a + 1)

/-- The time value of `Nan::New<v8::Date>(d)`, ECMAScript `TimeClip`: NaN beyond 8.64e15 ms,
else the integer part. -/
def TimeClip (d : Double) : Option Nat :=
  if d.leNat 8640000000000000 then some d.floor else none

/-! ## The records of RTIMULib -/

/-- The class `RTVector3`. -/
structure RTVector3 where
  x : RTFLOAT
  y : RTFLOAT
  z : RTFLOAT
deriving DecidableEq, Repr

/-- The fields of `RTIMU_DATA` that the binding reads or that the sensor reads fill in. -/
structure RTIMU_DATA where
  timestamp : Nat
  fusionPose : RTVector3
  gyro : RTVector3
  accel : RTVector3
  compass : RTVector3
  pressureValid : Bool
  pressure : RTFLOAT
  temperatureValid : Bool
  temperature : RTFLOAT
  humidityValid : Bool
  humidity : RTFLOAT
deriving DecidableEq, Repr

/-! ## Serialisation -/

/-- Source `AddRTVector3ToResult` (nodeimu.cpp:40-49). -/
def AddRTVector3ToResult (result : JsObject) (data : RTVector3) (name : String) : JsObject :=
  let field : JsObject := []
  let field := Nan.Set field "x" (.number data.x)
  let field := Nan.Set field "y" (.number data.y)
  let field := Nan.Set field "z" (.number data.z)
  Nan.Set result name (.object field)

/-- The time value, in epoch milliseconds, of the date built at nodeimu.cpp:54 from a timestamp
in microseconds: `0.001 * (double)timestamp`, clipped. -/
def timestampMs (timestamp : Nat) : Option Nat :=
  TimeClip (Double.mul Double.lit_0_001 (Double.ofUInt64 timestamp))

/-- The date `Nan::New<v8::Date>(0.001 * (double)timestamp)` of nodeimu.cpp:54. -/
def timestampDate (timestamp : Nat) : JsValue :=
  .date (timestampMs timestamp)

/-- Source `PutMeasurement` (nodeimu.cpp:51-75); `poseFromAccelMag` is
`RTMath::poseFromAccelMag` of RTIMULib. -/
def PutMeasurement (poseFromAccelMag : RTVector3 → RTVector3 → RTVector3)
    (imuData : RTIMU_DATA) (pressure : Bool) (pressureData : RTIMU_DATA)
    (humidity : Bool) (humidityData : RTIMU_DATA) (result : JsObject) : JsObject :=
  let result := Nan.Set result "timestamp" (timestampDate imuData.timestamp)
  let result := AddRTVector3ToResult result imuData.accel "accel"
  let result := AddRTVector3ToResult result imuData.gyro "gyro"
  let result := AddRTVector3ToResult result imuData.compass "compass"
  let result := AddRTVector3ToResult result imuData.fusionPose "fusionPose"
  let result := Nan.Set result "tiltHeading"
    (.number (poseFromAccelMag imuData.accel imuData.compass).z)
  let result :=
    if pressure then
      let result := Nan.Set result "pressure" (.number pressureData.pressure)
      let result := Nan.Set result "pressureValid" (.boolean pressureData.pressureValid)
      let result := Nan.Set result "pressureTemperature" (.number pressureData.temperature)
      Nan.Set result "pressureTemperatureValid" (.boolean pressureData.temperatureValid)
    else result
  let result :=
    if humidity then
      let result := Nan.Set result "humidity" (.number humidityData.humidity)
      let result := Nan.Set result "humidityValid" (.boolean humidityData.humidityValid)
      let result := Nan.Set result "humidityTemperature" (.number humidityData.temperature)
      Nan.Set result "humidityTemperatureValid" (.boolean humidityData.temperatureValid)
    else result
  result

/-! ## The sensor library -/

/-- A call the binding makes into RTIMULib or the C library. -/
inductive LibCall where
  | printf (s : String)
  | IMUInit
  | pressureInit
  | humidityInit
  | setSlerpPower (v : RTFLOAT)
  | setGyroEnable (b : Bool)
  | setAccelEnable (b : Bool)
  | setCompassEnable (b : Bool)
  | IMURead
  | getIMUData
  | pressureRead
  | humidityRead
deriving DecidableEq, Repr

/-- An `RTIMU` device: its type code, the configuration the binding sets, the sample its next
`IMURead` obtains (`none`: the read fails) and the record `getIMUData` returns. -/
structure RTIMU where
  imuType : Nat
  slerpPower : RTFLOAT
  gyroEnable : Bool
  accelEnable : Bool
  compassEnable : Bool
  sample : Option RTIMU_DATA
  imuData : RTIMU_DATA
deriving DecidableEq, Repr

/-- The call `imu->IMUType()`. -/
def RTIMU.IMUType (imu : RTIMU) : Nat := imu.imuType

/-- The call `imu->setSlerpPower(v)`. -/
def RTIMU.setSlerpPower (imu : RTIMU) (v : RTFLOAT) : RTIMU := { imu with slerpPower := v }

/-- The call `imu->setGyroEnable(b)`. -/
def RTIMU.setGyroEnable (imu : RTIMU) (b : Bool) : RTIMU := { imu with gyroEnable := b }

/-- The call `imu->setAccelEnable(b)`. -/
def RTIMU.setAccelEnable (imu : RTIMU) (b : Bool) : RTIMU := { imu with accelEnable := b }

/-- The call `imu->setCompassEnable(b)`. -/
def RTIMU.setCompassEnable (imu : RTIMU) (b : Bool) : RTIMU := { imu with compassEnable := b }

/-- The call `imu->IMURead()`: true when a new sample was obtained, which is then the record
`getIMUData` returns; a failing read stores nothing. -/
def RTIMU.IMURead (imu : RTIMU) : Bool × RTIMU :=
  match imu.sample with
  | some d => (true, { imu with imuData := d })
  | none => (false, imu)

/-- The call `imu->getIMUData()`. -/
def RTIMU.getIMUData (imu : RTIMU) : RTIMU_DATA := imu.imuData

/-- An `RTPressure` device, described by the reading its `pressureRead` delivers. -/
structure RTPressure where
  pressureValid : Bool
  pressure : RTFLOAT
  temperatureValid : Bool
  temperature : RTFLOAT
deriving DecidableEq, Repr

/-- The call `pressure->pressureRead(data)`: writes the pressure and the temperature of the
pressure sensor, with their validity flags, into the record. -/
def RTPressure.pressureRead (p : RTPressure) (data : RTIMU_DATA) : RTIMU_DATA :=
  { data with
    pressureValid := p.pressureValid
    pressure := p.pressure
    temperatureValid := p.temperatureValid
    temperature := p.temperature }

/-- An `RTHumidity` device, described by the reading its `humidityRead` delivers. -/
structure RTHumidity where
  humidityValid : Bool
  humidity : RTFLOAT
  temperatureValid : Bool
  temperature : RTFLOAT
deriving DecidableEq, Repr

/-- The call `humidity->humidityRead(data)`: writes the humidity and the temperature of the
humidity sensor, with their validity flags, into the record. -/
def RTHumidity.humidityRead (h : RTHumidity) (data : RTIMU_DATA) : RTIMU_DATA :=
  { data with
    humidityValid := h.humidityValid
    humidity := h.humidity
    temperatureValid := h.temperatureValid
    temperature := h.temperature }

/-! ## The class `NodeIMU` -/

/-- The members of `NodeIMU`; a null `pressure` or `humidity` pointer is `none`. -/
structure NodeIMU where
  imu : RTIMU
  pressure : Option RTPressure
  humidity : Option RTHumidity
deriving DecidableEq, Repr

/-- What the factories `RTIMU::createIMU`, `RTPressure::createPressure` and
`RTHumidity::createHumidity` return for the settings; `none` is a null pointer. -/
structure Hardware where
  imu : Option RTIMU
  pressure : Option RTPressure
  humidity : Option RTHumidity
deriving DecidableEq, Repr

/-- Outcome of the constructor: the process exits with a status, or the object is built.  Both
carry the calls made after the three factory calls. -/
inductive Construction where
  | exited (status : Nat) (calls : List LibCall)
  | constructed (obj : NodeIMU) (calls : List LibCall)
deriving DecidableEq, Repr

/-- Source `NodeIMU::NodeIMU` (nodeimu.cpp:6-25).  `RTIMU_TYPE_NULL` is a constant of RTIMULib;
the value `(float)0.02` is carried as 1/50. -/
def NodeIMU.new (RTIMU_TYPE_NULL : Nat) (hw : Hardware) : Construction :=
  let imu := hw.imu
  let pressure := hw.pressure
  let humidity := hw.humidity
  match imu with
  | none => .exited 1 [.printf "No IMU found\n"]
  | some imu =>
    if imu.IMUType = RTIMU_TYPE_NULL then .exited 1 [.printf "No IMU found\n"]
    else
      let calls := [LibCall.IMUInit]
      let calls := if pressure.isSome then calls ++ [.pressureInit] else calls
      let calls := if humidity.isSome then calls ++ [.humidityInit] else calls
      let imu := imu.setSlerpPower (1 / 50)
      let imu := imu.setGyroEnable true
      let imu := imu.setAccelEnable true
      let imu := imu.setCompassEnable true
      .constructed { imu := imu, pressure := pressure, humidity := humidity }
        (calls ++ [.setSlerpPower (1 / 50), .setGyroEnable true, .setAccelEnable true,
          .setCompassEnable true])

/-- Source `NodeIMU::GetValueSync` (nodeimu.cpp:125-141).  The arguments `pressureData` and
`humidityData` are the contents of the two locals declared without an initialiser.  Returns the
completion, the object afterwards and the library calls made. -/
def NodeIMU.GetValueSync (poseFromAccelMag : RTVector3 → RTVector3 → RTVector3)
    (obj : NodeIMU) (pressureData humidityData : RTIMU_DATA) :
    Completion × NodeIMU × List LibCall :=
  let (ok, imu) := obj.imu.IMURead
  let obj := { obj with imu := imu }
  if ok then
    let imuData := obj.imu.getIMUData
    let pressure := obj.pressure.isSome
    let humidity := obj.humidity.isSome
    let pressureData :=
      match obj.pressure with
      | some p => p.pressureRead pressureData
      | none => pressureData
    let humidityData :=
      match obj.humidity with
      | some h => h.humidityRead humidityData
      | none => humidityData
    let result : JsObject := []
    let result := PutMeasurement poseFromAccelMag imuData pressure pressureData humidity
      humidityData result
    (.returned (.object result), obj,
      [.IMURead, .getIMUData] ++ (if pressure then [.pressureRead] else [])
        ++ (if humidity then [.humidityRead] else []))
  else
    (.returned .undefined, obj, [.IMURead])

/-- Source `NodeIMU::SetImuConfig` (nodeimu.cpp:144-164); `info` is the argument list, and an
argument that was not passed reads as `undefined`. -/
def NodeIMU.SetImuConfig (obj : NodeIMU) (info : List JsValue) : Completion × NodeIMU :=
  if info.length < 3 then
    (ThrowTypeError "Wrong number of arguments", obj)
  else if !(info.getD 0 .undefined).IsBoolean || !(info.getD 1 .undefined).IsBoolean
      || !(info.getD 2 .undefined).IsBoolean then
    (ThrowTypeError "Arguments should be boolean", obj)
  else
    let compassEnabled := (info.getD 0 .undefined).BooleanValue
    let gyroEnabled := (info.getD 1 .undefined).BooleanValue
    let accelEnabled := (info.getD 2 .undefined).BooleanValue
    let imu := obj.imu.setGyroEnable compassEnabled
    let imu := imu.setAccelEnable gyroEnabled
    let imu := imu.setCompassEnable accelEnabled
    (.returned .undefined, { obj with imu := imu })

/-! ## The asynchronous read -/

/-- The members of `SensorWorker`, with the error message of its base class `Nan::AsyncWorker`
(`none` until `SetErrorMessage` is called). -/
structure SensorWorker where
  d_imu : RTIMU
  d_pressure : Option RTPressure
  d_humidity : Option RTHumidity
  d_imuData : RTIMU_DATA
  errmsg : Option String
deriving DecidableEq, Repr

/-- Source `SensorWorker::Execute` (nodeimu.cpp:87-93), with the library calls made. -/
def SensorWorker.Execute (w : SensorWorker) : SensorWorker × List LibCall :=
  let (ok, imu) := w.d_imu.IMURead
  let w := { w with d_imu := imu }
  if ok then
    let w := { w with d_imuData := w.d_imu.getIMUData }
    let w :=
      match w.d_pressure with
      | some p => { w with d_imuData := p.pressureRead w.d_imuData }
      | none => w
    let w :=
      match w.d_humidity with
      | some h => { w with d_imuData := h.humidityRead w.d_imuData }
      | none => w
    (w, [.IMURead, .getIMUData] ++ (if w.d_pressure.isSome then [.pressureRead] else [])
      ++ (if w.d_humidity.isSome then [.humidityRead] else []))
  else
    (w, [.IMURead])

/-- The serialisation in which one record supplies the IMU, the pressure and the humidity fields
of `PutMeasurement`: the four-argument call of nodeimu.cpp:102 read against the six-parameter
function of nodeimu.cpp:51, the record the sensor reads were written into being the record they
are serialised from. -/
def PutMeasurementOfRecord (poseFromAccelMag : RTVector3 → RTVector3 → RTVector3)
    (imuData : RTIMU_DATA) (pressure humidity : Bool) (result : JsObject) : JsObject :=
  PutMeasurement poseFromAccelMag imuData pressure imuData humidity imuData result

/-- Source `SensorWorker::HandleOKCallback` (nodeimu.cpp:98-109): the arguments handed to the
callback.  The call at line 102, `PutMeasurement(d_imuData, d_pressure != NULL,
d_humidity != NULL, result)`, passes four arguments, and nodeimu.cpp defines `PutMeasurement`
with six parameters only; the function the call names is the parameter `put`. -/
def SensorWorker.HandleOKCallback (put : RTIMU_DATA → Bool → Bool → JsObject → JsObject)
    (w : SensorWorker) : List JsValue :=
  let result : JsObject := []
  let result := put w.d_imuData w.d_pressure.isSome w.d_humidity.isSome result
  let argv := [JsValue.null, JsValue.object result]
  argv

/-- The method `HandleErrorCallback` that `SensorWorker` inherits from `Nan::AsyncWorker`: the
callback gets the error alone. -/
def SensorWorker.HandleErrorCallback (msg : String) : List JsValue :=
  [JsValue.error "Error" msg]

/-- The method `WorkComplete` of `Nan::AsyncWorker`, run on the main loop once `Execute` has
finished. -/
def SensorWorker.WorkComplete (put : RTIMU_DATA → Bool → Bool → JsObject → JsObject)
    (w : SensorWorker) : List JsValue :=
  match w.errmsg with
  | none => w.HandleOKCallback put
  | some msg => SensorWorker.HandleErrorCallback msg

/-- Source `NodeIMU::GetValue` (nodeimu.cpp:119-123) run to completion: the worker is built on
the sensors of the object, executed, and completed.  `d_imuData` is the content of the member
the worker's constructor leaves uninitialised, `put` the function `HandleOKCallback` calls.
Returns the arguments the callback receives, the object afterwards and the library calls
made. -/
def NodeIMU.GetValue (put : RTIMU_DATA → Bool → Bool → JsObject → JsObject)
    (obj : NodeIMU) (d_imuData : RTIMU_DATA) : List JsValue × NodeIMU × List LibCall :=
  let w : SensorWorker :=
    { d_imu := obj.imu, d_pressure := obj.pressure, d_humidity := obj.humidity,
      d_imuData := d_imuData, errmsg := none }
  let (w, calls) := w.Execute
  (w.WorkComplete put, { obj with imu := w.d_imu }, calls)

/-! ## Sample devices and records -/

/-- A stand-in for `RTMath::poseFromAccelMag`, to evaluate the functions on examples. -/
def samplePose (accel mag : RTVector3) : RTVector3 :=
  { x := accel.x, y := accel.y, z := accel.x + mag.x }

/-- A sample the IMU delivers. -/
def sampleData : RTIMU_DATA :=
  { timestamp := 1500000, fusionPose := ⟨1 / 10, 2 / 10, 3 / 10⟩, gyro := ⟨4, 5, 6⟩,
    accel := ⟨0, 0, 1⟩, compass := ⟨1, 0, 0⟩, pressureValid := false, pressure := 0,
    temperatureValid := false, temperature := 0, humidityValid := false, humidity := 0 }

/-- A record that was never written by a read: what an uninitialised `RTIMU_DATA` may hold. -/
def staleData : RTIMU_DATA :=
  { timestamp := 7, fusionPose := ⟨9, 9, 9⟩, gyro := ⟨9, 9, 9⟩, accel := ⟨9, 9, 9⟩,
    compass := ⟨9, 9, 9⟩, pressureValid := true, pressure := 99, temperatureValid := true,
    temperature := 99, humidityValid := true, humidity := 99 }

/-- A pressure sensor at 1013 mbar and 20 degrees. -/
def samplePressure : RTPressure :=
  { pressureValid := true, pressure := 1013, temperatureValid := true, temperature := 20 }

/-- A humidity sensor at 45 % and 30 degrees. -/
def sampleHumidity : RTHumidity :=
  { humidityValid := true, humidity := 45, temperatureValid := true, temperature := 30 }

/-- An IMU whose next read succeeds and delivers `sampleData`. -/
def sampleIMU : RTIMU :=
  { imuType := 7, slerpPower := 1 / 50, gyroEnable := true, accelEnable := true,
    compassEnable := true, sample := some sampleData, imuData := staleData }

/-- An IMU whose next read fails. -/
def failingIMU : RTIMU := { sampleIMU with sample := none }

/-- A `NodeIMU` with both optional sensors whose IMU read succeeds. -/
def sampleNode : NodeIMU :=
  { imu := sampleIMU, pressure := some samplePressure, humidity := some sampleHumidity }

/-- The sensors of `sampleNode`, but the pressure sensor is at 25 degrees. -/
def warmNode : NodeIMU :=
  { imu := sampleIMU,
    pressure := some { pressureValid := samplePressure.pressureValid,
                       pressure := samplePressure.pressure,
                       temperatureValid := true, temperature := 25 },
    humidity := some sampleHumidity }

/-- A `NodeIMU` with both optional sensors whose IMU read fails. -/
def failingNode : NodeIMU :=
  { imu := failingIMU, pressure := some samplePressure, humidity := some sampleHumidity }

/-! ## Auxiliary definitions for the proofs -/

/-- The names of the properties that are present whatever sensors exist. -/
def baseKeys : List String :=
  ["timestamp", "accel", "gyro", "compass", "fusionPose", "tiltHeading"]

/-- The names of the properties written for a pressure sensor. -/
def pressureKeys : List String :=
  ["pressure", "pressureValid", "pressureTemperature", "pressureTemperatureValid"]

/-- The names of the properties written for a humidity sensor. -/
def humidityKeys : List String :=
  ["humidity", "humidityValid", "humidityTemperature", "humidityTemperatureValid"]

/-- The object a vector is stored as. -/
def vectorObject (v : RTVector3) : JsValue :=
  .object [("x", .number v.x), ("y", .number v.y), ("z", .number v.z)]

/-- The record the asynchronous read serialises when the IMU read succeeds: the sample of the
IMU, overwritten by the pressure read and then by the humidity read. -/
def asyncRecord (obj : NodeIMU) : RTIMU_DATA :=
  let d := obj.imu.IMURead.2.getIMUData
  let d :=
    match obj.pressure with
    | some p => p.pressureRead d
    | none => d
  match obj.humidity with
  | some h => h.humidityRead d
  | none => d

/-- The whole number `n` rounded to 53 significant bits, as a whole number again: the value of
`Double.round n 0`. -/
def val53 (n : Nat) : Nat :=
  roundNearestEven n (bitLength n - 53) * 2 ^ (bitLength n - 53)

/-! ## Serialisation: proofs -/

/-- The object `PutMeasurement` builds from an empty one, property by property. -/
theorem PutMeasurement_nil (pose : RTVector3 → RTVector3 → RTVector3)
    (imuData pressureData humidityData : RTIMU_DATA) (pressure humidity : Bool) :
    PutMeasurement pose imuData pressure pressureData humidity humidityData []
      = [("timestamp", timestampDate imuData.timestamp),
          ("accel", vectorObject imuData.accel),
          ("gyro", vectorObject imuData.gyro),
          ("compass", vectorObject imuData.compass),
          ("fusionPose", vectorObject imuData.fusionPose),
          ("tiltHeading", .number (pose imuData.accel imuData.compass).z)]
        ++ (if pressure then
              [("pressure", .number pressureData.pressure),
               ("pressureValid", .boolean pressureData.pressureValid),
               ("pressureTemperature", .number pressureData.temperature),
               ("pressureTemperatureValid", .boolean pressureData.temperatureValid)]
            else [])
        ++ (if humidity then
              [("humidity", .number humidityData.humidity),
               ("humidityValid", .boolean humidityData.humidityValid),
               ("humidityTemperature", .number humidityData.temperature),
               ("humidityTemperatureValid", .boolean humidityData.temperatureValid)]
            else []) := by
  cases pressure <;> cases humidity <;> rfl

/-- C1: for every IMU data record and every combination of the pressure-present and
humidity-present flags, the object `PutMeasurement` builds has exactly the properties
`timestamp`, `accel`, `gyro`, `compass`, `fusionPose`, `tiltHeading`, followed by the four
pressure properties exactly when the pressure sensor is present and by the four humidity
properties exactly when the humidity sensor is present; each of the four vectors is an object
with exactly the properties `x`, `y`, `z`.  The presence of either group depends on its own
flag alone, not on the other flag nor on any validity flag. -/
theorem PutMeasurement_keys (pose : RTVector3 → RTVector3 → RTVector3)
    (imuData pressureData humidityData : RTIMU_DATA) (pressure humidity : Bool) :
    keys (PutMeasurement pose imuData pressure pressureData humidity humidityData [])
        = baseKeys ++ (if pressure then pressureKeys else [])
            ++ (if humidity then humidityKeys else [])
      ∧ (∀ name ∈ ["accel", "gyro", "compass", "fusionPose"],
          (Nan.Get (PutMeasurement pose imuData pressure pressureData humidity humidityData [])
            name).map JsValue.keys = some ["x", "y", "z"])
      ∧ (∀ k ∈ pressureKeys,
          (k ∈ keys (PutMeasurement pose imuData pressure pressureData humidity humidityData [])
            ↔ pressure = true))
      ∧ (∀ k ∈ humidityKeys,
          (k ∈ keys (PutMeasurement pose imuData pressure pressureData humidity humidityData [])
            ↔ humidity = true)) := by
  rw [PutMeasurement_nil]
  cases pressure <;> cases humidity <;>
    simp [Nan.Get, keys, JsValue.keys, baseKeys, pressureKeys, humidityKeys, vectorObject]

/-- With a pressure sensor and no humidity sensor, `accel` has the properties `x`, `y`, `z`,
`pressureValid` is a property although the flag it stores is false, and `humidity` is not a
property. -/
theorem PutMeasurement_keys_witness :
    (Nan.Get (PutMeasurement samplePose sampleData true sampleData false staleData [])
        "accel").map JsValue.keys = some ["x", "y", "z"]
      ∧ "pressureValid"
          ∈ keys (PutMeasurement samplePose sampleData true sampleData false staleData [])
      ∧ ¬ "humidity"
          ∈ keys (PutMeasurement samplePose sampleData true sampleData false staleData []) :=
  ⟨(PutMeasurement_keys samplePose sampleData sampleData staleData true false).2.1 "accel"
      (by decide),
    ((PutMeasurement_keys samplePose sampleData sampleData staleData true false).2.2.1
      "pressureValid" (by decide)).2 rfl,
    fun hmem => absurd
      (((PutMeasurement_keys samplePose sampleData sampleData staleData true false).2.2.2
        "humidity" (by decide)).1 hmem) (by decide)⟩

theorem Nan_Get_Set_same (obj : JsObject) (key : String) (value : JsValue) :
    Nan.Get (Nan.Set obj key value) key = some value := by
  induction obj with
  | nil => simp [Nan.Set, Nan.Get]
  | cons p rest ih =>
    obtain ⟨k, w⟩ := p
    by_cases hk : k = key
    · simp [Nan.Set, Nan.Get, hk]
    · simp [Nan.Set, Nan.Get, hk, ih]

theorem Nan_Get_Set_other (obj : JsObject) (key other : String) (value : JsValue)
    (h : key ≠ other) : Nan.Get (Nan.Set obj key value) other = Nan.Get obj other := by
  induction obj with
  | nil => simp [Nan.Set, Nan.Get, h]
  | cons p rest ih =>
    obtain ⟨k, w⟩ := p
    by_cases hk : k = key
    · subst hk
      simp [Nan.Set, Nan.Get, h]
    · by_cases ho : k = other
      · subst ho
        simp [Nan.Set, Nan.Get, hk]
      · simp [Nan.Set, Nan.Get, hk, ho, ih]

/-- Whatever object `PutMeasurement` writes into, the `tiltHeading` it leaves there is the yaw
of `poseFromAccelMag` on the accelerometer and compass vectors of the IMU record. -/
theorem PutMeasurement_get_tiltHeading (pose : RTVector3 → RTVector3 → RTVector3)
    (imuData pressureData humidityData : RTIMU_DATA) (pressure humidity : Bool)
    (result : JsObject) :
    Nan.Get (PutMeasurement pose imuData pressure pressureData humidity humidityData result)
      "tiltHeading" = some (.number (pose imuData.accel imuData.compass).z) := by
  cases pressure <;> cases humidity <;>
    simp [PutMeasurement, Nan_Get_Set_same, Nan_Get_Set_other]

/-- C7: the `tiltHeading` written by `PutMeasurement` is the z component of `poseFromAccelMag`
applied to the accelerometer and compass vectors of the IMU record; two IMU records that agree
on `accel` and `compass` yield the same `tiltHeading`, whatever their fused pose, gyro,
timestamp, sensor flags and pressure and humidity records. -/
theorem tiltHeading_depends_on_accel_compass_only (pose : RTVector3 → RTVector3 → RTVector3)
    (d₁ d₂ pd₁ pd₂ hd₁ hd₂ : RTIMU_DATA) (p₁ p₂ h₁ h₂ : Bool) (r₁ r₂ : JsObject)
    (haccel : d₁.accel = d₂.accel) (hcompass : d₁.compass = d₂.compass) :
    Nan.Get (PutMeasurement pose d₁ p₁ pd₁ h₁ hd₁ r₁) "tiltHeading"
        = some (.number (pose d₁.accel d₁.compass).z)
      ∧ Nan.Get (PutMeasurement pose d₁ p₁ pd₁ h₁ hd₁ r₁) "tiltHeading"
        = Nan.Get (PutMeasurement pose d₂ p₂ pd₂ h₂ hd₂ r₂) "tiltHeading" := by
  rw [PutMeasurement_get_tiltHeading, PutMeasurement_get_tiltHeading, haccel, hcompass]
  exact ⟨rfl, rfl⟩

/-- Two records with the accelerometer and compass vectors of `sampleData` and nothing else in
common, serialised with different sensor flags, have the same `tiltHeading`. -/
theorem tiltHeading_depends_on_accel_compass_only_witness :
    Nan.Get (PutMeasurement samplePose sampleData true sampleData false staleData [])
        "tiltHeading" = some (.number (samplePose sampleData.accel sampleData.compass).z)
      ∧ Nan.Get (PutMeasurement samplePose sampleData true sampleData false staleData [])
          "tiltHeading"
        = Nan.Get (PutMeasurement samplePose
            { staleData with accel := sampleData.accel, compass := sampleData.compass }
            false staleData true sampleData []) "tiltHeading" :=
  tiltHeading_depends_on_accel_compass_only samplePose sampleData
    { staleData with accel := sampleData.accel, compass := sampleData.compass }
    sampleData staleData staleData sampleData true false false true [] [] rfl rfl

/-- C9: reading the properties of the object `PutMeasurement` builds gives back the input field
for field: the x, y, z of `accel`, `gyro`, `compass` and `fusionPose` are those of the IMU
record; with a pressure sensor, `pressure`, `pressureValid`, `pressureTemperature`,
`pressureTemperatureValid` are the pressure, its flag, the temperature and its flag of the
pressure record; with a humidity sensor, likewise for the humidity record.  Hence two
measurements with the same sensor flags that serialise to equal objects agree on every one of
these fields. -/
theorem PutMeasurement_roundtrip (pose : RTVector3 → RTVector3 → RTVector3)
    (d pd hd : RTIMU_DATA) (p h : Bool) :
    (getPath (PutMeasurement pose d p pd h hd []) "accel" "x" = some (.number d.accel.x)
      ∧ getPath (PutMeasurement pose d p pd h hd []) "accel" "y" = some (.number d.accel.y)
      ∧ getPath (PutMeasurement pose d p pd h hd []) "accel" "z" = some (.number d.accel.z)
      ∧ getPath (PutMeasurement pose d p pd h hd []) "gyro" "x" = some (.number d.gyro.x)
      ∧ getPath (PutMeasurement pose d p pd h hd []) "gyro" "y" = some (.number d.gyro.y)
      ∧ getPath (PutMeasurement pose d p pd h hd []) "gyro" "z" = some (.number d.gyro.z)
      ∧ getPath (PutMeasurement pose d p pd h hd []) "compass" "x" = some (.number d.compass.x)
      ∧ getPath (PutMeasurement pose d p pd h hd []) "compass" "y" = some (.number d.compass.y)
      ∧ getPath (PutMeasurement pose d p pd h hd []) "compass" "z" = some (.number d.compass.z)
      ∧ getPath (PutMeasurement pose d p pd h hd []) "fusionPose" "x"
          = some (.number d.fusionPose.x)
      ∧ getPath (PutMeasurement pose d p pd h hd []) "fusionPose" "y"
          = some (.number d.fusionPose.y)
      ∧ getPath (PutMeasurement pose d p pd h hd []) "fusionPose" "z"
          = some (.number d.fusionPose.z))
    ∧ (p = true →
        Nan.Get (PutMeasurement pose d p pd h hd []) "pressure" = some (.number pd.pressure)
        ∧ Nan.Get (PutMeasurement pose d p pd h hd []) "pressureValid"
            = some (.boolean pd.pressureValid)
        ∧ Nan.Get (PutMeasurement pose d p pd h hd []) "pressureTemperature"
            = some (.number pd.temperature)
        ∧ Nan.Get (PutMeasurement pose d p pd h hd []) "pressureTemperatureValid"
            = some (.boolean pd.temperatureValid))
    ∧ (h = true →
        Nan.Get (PutMeasurement pose d p pd h hd []) "humidity" = some (.number hd.humidity)
        ∧ Nan.Get (PutMeasurement pose d p pd h hd []) "humidityValid"
            = some (.boolean hd.humidityValid)
        ∧ Nan.Get (PutMeasurement pose d p pd h hd []) "humidityTemperature"
            = some (.number hd.temperature)
        ∧ Nan.Get (PutMeasurement pose d p pd h hd []) "humidityTemperatureValid"
            = some (.boolean hd.temperatureValid))
    ∧ (∀ d' pd' hd' : RTIMU_DATA,
        PutMeasurement pose d' p pd' h hd' [] = PutMeasurement pose d p pd h hd [] →
          d'.accel = d.accel ∧ d'.gyro = d.gyro ∧ d'.compass = d.compass
          ∧ d'.fusionPose = d.fusionPose
          ∧ (p = true → pd'.pressure = pd.pressure ∧ pd'.pressureValid = pd.pressureValid
              ∧ pd'.temperature = pd.temperature ∧ pd'.temperatureValid = pd.temperatureValid)
          ∧ (h = true → hd'.humidity = hd.humidity ∧ hd'.humidityValid = hd.humidityValid
              ∧ hd'.temperature = hd.temperature
              ∧ hd'.temperatureValid = hd.temperatureValid)) := by
  refine ⟨?_, ?_, ?_, ?_⟩
  · rw [PutMeasurement_nil]
    cases p <;> cases h <;> simp [getPath, Nan.Get, vectorObject]
  · rintro rfl
    rw [PutMeasurement_nil]
    cases h <;> simp [Nan.Get]
  · rintro rfl
    rw [PutMeasurement_nil]
    cases p <;> simp [Nan.Get]
  · intro d' pd' hd' heq
    rw [PutMeasurement_nil, PutMeasurement_nil] at heq
    have vec : ∀ a b : RTVector3, a.x = b.x → a.y = b.y → a.z = b.z → a = b := by
      intro a b h1 h2 h3
      cases a; cases b; simp_all
    cases p <;> cases h <;> simp [vectorObject] at heq <;>
      simp [vec d'.accel d.accel, vec d'.gyro d.gyro, vec d'.compass d.compass,
        vec d'.fusionPose d.fusionPose, heq]

/-- With both sensors present, the fused pose and the two temperatures are read back; an IMU
record that differs from `sampleData` in its own humidity field only, which is not serialised,
gives the same object, and has the same fused pose. -/
theorem PutMeasurement_roundtrip_witness :
    getPath (PutMeasurement samplePose sampleData true staleData true sampleData [])
        "fusionPose" "z" = some (.number sampleData.fusionPose.z)
      ∧ Nan.Get (PutMeasurement samplePose sampleData true staleData true sampleData [])
          "pressureTemperature" = some (.number staleData.temperature)
      ∧ Nan.Get (PutMeasurement samplePose sampleData true staleData true sampleData [])
          "humidityTemperature" = some (.number sampleData.temperature)
      ∧ ({ sampleData with humidity := 77 } : RTIMU_DATA).fusionPose = sampleData.fusionPose
      ∧ staleData.temperature = staleData.temperature :=
  ⟨(PutMeasurement_roundtrip samplePose sampleData staleData sampleData true true).1.2.2.2.2.2.2.2.2.2.2.2,
    ((PutMeasurement_roundtrip samplePose sampleData staleData sampleData true true).2.1
      rfl).2.2.1,
    ((PutMeasurement_roundtrip samplePose sampleData staleData sampleData true true).2.2.1
      rfl).2.2.1,
    ((PutMeasurement_roundtrip samplePose sampleData staleData sampleData true true).2.2.2
      { sampleData with humidity := 77 } staleData sampleData rfl).2.2.2.1,
    (((PutMeasurement_roundtrip samplePose sampleData staleData sampleData true true).2.2.2
      { sampleData with humidity := 77 } staleData sampleData rfl).2.2.2.2.1 rfl).2.2.1⟩

/-! ## Reconfiguration: proofs -/

/-- C2: for all booleans `a`, `b`, `c`, the call `SetImuConfig(a, b, c)` succeeds and leaves the
IMU with gyro enable `a`, accel enable `b` and compass enable `c`: each positional argument
reaches the setter of the axis in the same position of the interface
`reconfigure(enableGyro, enableAccel, enableCompass)`.  (The locals that carry the arguments are
named after other axes; the data flow is positional.) -/
theorem SetImuConfig_positional (obj : NodeIMU) (a b c : Bool) (rest : List JsValue) :
    (obj.SetImuConfig (.boolean a :: .boolean b :: .boolean c :: rest)).1
        = .returned .undefined
      ∧ (obj.SetImuConfig (.boolean a :: .boolean b :: .boolean c :: rest)).2.imu.gyroEnable = a
      ∧ (obj.SetImuConfig (.boolean a :: .boolean b :: .boolean c :: rest)).2.imu.accelEnable
        = b
      ∧ (obj.SetImuConfig (.boolean a :: .boolean b :: .boolean c :: rest)).2.imu.compassEnable
        = c := by
  have hlen : ¬ (rest.length + 1 + 1 + 1 < 3) := by omega
  simp [NodeIMU.SetImuConfig, JsValue.IsBoolean, JsValue.BooleanValue, RTIMU.setGyroEnable,
    RTIMU.setAccelEnable, RTIMU.setCompassEnable, hlen]

/-- C3: `SetImuConfig` fails exactly when fewer than three arguments are passed or one of the
first three is not a boolean; a failure is a pending `TypeError` and leaves the object, hence
the gyro, accel and compass enables and the slerp power, unchanged; a call with three boolean
arguments always succeeds. -/
theorem SetImuConfig_fails_iff (obj : NodeIMU) (info : List JsValue) :
    ((obj.SetImuConfig info).1.isError = true
        ↔ (info.length < 3 ∨ ∃ i, i < 3 ∧ (info.getD i .undefined).IsBoolean = false))
      ∧ ((obj.SetImuConfig info).1.isError = true →
          (∃ msg, (obj.SetImuConfig info).1 = .threw (.error "TypeError" msg))
          ∧ (obj.SetImuConfig info).2 = obj)
      ∧ (∀ a b c : Bool,
          (obj.SetImuConfig [.boolean a, .boolean b, .boolean c]).1 = .returned .undefined) := by
  refine ⟨?_, ?_, ?_⟩
  · by_cases hlen : info.length < 3
    · simp [NodeIMU.SetImuConfig, hlen, ThrowTypeError, Completion.isError]
    · by_cases hb : (!(info.getD 0 .undefined).IsBoolean || !(info.getD 1 .undefined).IsBoolean
          || !(info.getD 2 .undefined).IsBoolean) = true
      · have hex : ∃ i, i < 3 ∧ (info.getD i .undefined).IsBoolean = false := by
          simp only [Bool.or_eq_true, Bool.not_eq_true'] at hb
          rcases hb with (h0 | h1) | h2
          · exact ⟨0, by decide, h0⟩
          · exact ⟨1, by decide, h1⟩
          · exact ⟨2, by decide, h2⟩
        simp only [NodeIMU.SetImuConfig, if_neg hlen, if_pos hb, ThrowTypeError,
          Completion.isError, true_iff]
        exact Or.inr hex
      · have hall : ∀ i, i < 3 → (info.getD i .undefined).IsBoolean = true := by
          simp only [Bool.or_eq_true, Bool.not_eq_true', not_or, Bool.not_eq_false] at hb
          intro i hi
          interval_cases i
          · exact hb.1.1
          · exact hb.1.2
          · exact hb.2
        simp only [NodeIMU.SetImuConfig, if_neg hlen, if_neg hb, Completion.isError]
        constructor
        · intro hf
          exact absurd hf (by decide)
        · rintro (hl | ⟨i, hi, hfalse⟩)
          · exact absurd hl hlen
          · rw [hall i hi] at hfalse
            exact absurd hfalse (by decide)
  · intro herr
    unfold NodeIMU.SetImuConfig at herr ⊢
    split_ifs at herr ⊢ with h1 h2
    · exact ⟨⟨_, rfl⟩, rfl⟩
    · exact ⟨⟨_, rfl⟩, rfl⟩
    · simp [Completion.isError] at herr
  · intro a b c
    simp [NodeIMU.SetImuConfig, JsValue.IsBoolean]

/-- A call with two arguments and a call whose second argument is a number both fail and leave
`sampleNode` as it was. -/
theorem SetImuConfig_fails_iff_witness :
    (sampleNode.SetImuConfig [.boolean true, .boolean false]).1.isError = true
      ∧ (sampleNode.SetImuConfig [.boolean true, .boolean false]).2 = sampleNode
      ∧ (sampleNode.SetImuConfig [.boolean true, .number 1, .boolean false]).1.isError = true
      ∧ (sampleNode.SetImuConfig [.boolean true, .number 1, .boolean false]).2 = sampleNode :=
  ⟨(SetImuConfig_fails_iff sampleNode [.boolean true, .boolean false]).1.2
      (Or.inl (by decide)),
    ((SetImuConfig_fails_iff sampleNode [.boolean true, .boolean false]).2.1
      ((SetImuConfig_fails_iff sampleNode [.boolean true, .boolean false]).1.2
        (Or.inl (by decide)))).2,
    (SetImuConfig_fails_iff sampleNode [.boolean true, .number 1, .boolean false]).1.2
      (Or.inr ⟨1, by decide, rfl⟩),
    ((SetImuConfig_fails_iff sampleNode [.boolean true, .number 1, .boolean false]).2.1
      ((SetImuConfig_fails_iff sampleNode [.boolean true, .number 1, .boolean false]).1.2
        (Or.inr ⟨1, by decide, rfl⟩))).2⟩

/-! ## Construction: proofs -/

/-- C6: constructing a `NodeIMU` ends the process exactly when no IMU was created or the created
IMU has the null type; it then exits with status 1 after printing the message, before any
sensor is initialised or configured.  Whether a pressure or humidity sensor exists has no part
in it: with an IMU of another type the object is always built, and an optional sensor is
initialised exactly when it exists. -/
theorem NodeIMU_new_exit_iff (RTIMU_TYPE_NULL : Nat) (hw : Hardware) :
    ((∃ status calls, NodeIMU.new RTIMU_TYPE_NULL hw = .exited status calls)
        ↔ (hw.imu = none ∨ ∃ imu, hw.imu = some imu ∧ imu.IMUType = RTIMU_TYPE_NULL))
      ∧ (∀ status calls, NodeIMU.new RTIMU_TYPE_NULL hw = .exited status calls →
          status = 1 ∧ calls = [.printf "No IMU found\n"])
      ∧ (∀ obj calls, NodeIMU.new RTIMU_TYPE_NULL hw = .constructed obj calls →
          (LibCall.pressureInit ∈ calls ↔ hw.pressure.isSome = true)
          ∧ (LibCall.humidityInit ∈ calls ↔ hw.humidity.isSome = true)
          ∧ obj.pressure = hw.pressure ∧ obj.humidity = hw.humidity)
      ∧ (∀ imu, hw.imu = some imu → imu.IMUType ≠ RTIMU_TYPE_NULL →
          ∃ obj calls, NodeIMU.new RTIMU_TYPE_NULL hw = .constructed obj calls) := by
  obtain ⟨imu, pressure, humidity⟩ := hw
  cases imu with
  | none => simp [NodeIMU.new]
  | some imu =>
    by_cases ht : imu.IMUType = RTIMU_TYPE_NULL
    · simp [NodeIMU.new, ht]
    · refine ⟨?_, ?_, ?_, ?_⟩
      · simp [NodeIMU.new, ht]
      · simp [NodeIMU.new, ht]
      · intro obj calls hnew
        simp only [NodeIMU.new, if_neg ht, Construction.constructed.injEq] at hnew
        obtain ⟨hobj, hcalls⟩ := hnew
        subst hobj hcalls
        cases pressure <;> cases humidity <;> simp
      · intro imu' himu hne
        simp [NodeIMU.new, ht]

/-- With type code 1 for the null type: an IMU of that type and both optional sensors ends the
process with status 1; no IMU likewise; the sample IMU alone, without optional sensors, is
built into an object. -/
theorem NodeIMU_new_exit_iff_witness :
    (∃ status calls, NodeIMU.new 1
        ⟨some { sampleIMU with imuType := 1 }, some samplePressure, some sampleHumidity⟩
        = .exited status calls)
      ∧ (∃ status calls, NodeIMU.new 1 ⟨none, none, none⟩ = .exited status calls)
      ∧ (∃ obj calls, NodeIMU.new 1 ⟨some sampleIMU, none, none⟩ = .constructed obj calls) :=
  ⟨(NodeIMU_new_exit_iff 1
      ⟨some { sampleIMU with imuType := 1 }, some samplePressure, some sampleHumidity⟩).1.2
      (Or.inr ⟨_, rfl, rfl⟩),
    (NodeIMU_new_exit_iff 1 ⟨none, none, none⟩).1.2 (Or.inl rfl),
    (NodeIMU_new_exit_iff 1 ⟨some sampleIMU, none, none⟩).2.2.2 sampleIMU rfl (by decide)⟩

/-! ## Reading: proofs -/

/-- The synchronous read when the IMU read fails: `undefined` is returned, nothing changes, and
the IMU read is the only library call. -/
theorem GetValueSync_of_read_failed (pose : RTVector3 → RTVector3 → RTVector3) (obj : NodeIMU)
    (pressureData humidityData : RTIMU_DATA) (hfail : obj.imu.IMURead.1 = false) :
    obj.GetValueSync pose pressureData humidityData = (.returned .undefined, obj, [.IMURead]) := by
  unfold RTIMU.IMURead at hfail
  unfold NodeIMU.GetValueSync RTIMU.IMURead
  cases hs : obj.imu.sample with
  | none => simp
  | some d => simp [hs] at hfail

/-- The synchronous read when the IMU read succeeds: the measurement built from the record of
the IMU and from a separate record for each optional sensor is returned. -/
theorem GetValueSync_of_read_ok (pose : RTVector3 → RTVector3 → RTVector3) (obj : NodeIMU)
    (pressureData humidityData : RTIMU_DATA) (hok : obj.imu.IMURead.1 = true) :
    (obj.GetValueSync pose pressureData humidityData).1
      = .returned (.object (PutMeasurement pose obj.imu.IMURead.2.getIMUData
          obj.pressure.isSome
          (match obj.pressure with
            | some p => p.pressureRead pressureData
            | none => pressureData)
          obj.humidity.isSome
          (match obj.humidity with
            | some h => h.humidityRead humidityData
            | none => humidityData) [])) := by
  unfold RTIMU.IMURead at hok ⊢
  unfold NodeIMU.GetValueSync RTIMU.IMURead
  cases hs : obj.imu.sample with
  | none => simp [hs] at hok
  | some d => simp

/-- C4 as stated fails: with an IMU whose read fails, the synchronous read ends normally with the
value `undefined`; no exception is pending and no error value is returned. -/
theorem GetValueSync_read_failure_is_not_an_error :
    failingNode.imu.IMURead.1 = false
      ∧ (failingNode.GetValueSync samplePose staleData staleData).1 = .returned .undefined
      ∧ (failingNode.GetValueSync samplePose staleData staleData).1.isError = false := by
  refine ⟨rfl, ?_, ?_⟩
  · rw [GetValueSync_of_read_failed samplePose failingNode staleData staleData rfl]
  · rw [GetValueSync_of_read_failed samplePose failingNode staleData staleData rfl]
    rfl

/-- The synchronous read when the IMU read succeeds, in full: the returned object, the object
afterwards and the library calls made. -/
theorem GetValueSync_of_read_ok_full (pose : RTVector3 → RTVector3 → RTVector3) (obj : NodeIMU)
    (pressureData humidityData : RTIMU_DATA) (hok : obj.imu.IMURead.1 = true) :
    obj.GetValueSync pose pressureData humidityData
      = (.returned (.object (PutMeasurement pose obj.imu.IMURead.2.getIMUData
            obj.pressure.isSome
            (match obj.pressure with
              | some p => p.pressureRead pressureData
              | none => pressureData)
            obj.humidity.isSome
            (match obj.humidity with
              | some h => h.humidityRead humidityData
              | none => humidityData) [])),
          { obj with imu := obj.imu.IMURead.2 },
          [.IMURead, .getIMUData] ++ (if obj.pressure.isSome then [.pressureRead] else [])
            ++ (if obj.humidity.isSome then [.humidityRead] else [])) := by
  obtain ⟨⟨ty, sl, g, a, c, sample, data⟩, pressure, humidity⟩ := obj
  cases sample with
  | none => simp [RTIMU.IMURead] at hok
  | some d => simp [NodeIMU.GetValueSync, RTIMU.IMURead]

/-- C4 as amended: for every sensor state in which the IMU read reports failure, the synchronous
read returns `undefined` (it throws nothing and returns no error value) rather than a
measurement, leaves the object unchanged and makes no library call but the IMU read, so no
pressure or humidity read; it returns a measurement object exactly when the IMU read
succeeds, and that object is the measurement `PutMeasurement` builds from the sample the IMU
read obtained, from the pressure read into a record of its own when a pressure sensor exists
and from the humidity read into a record of its own when a humidity sensor exists, each
optional sensor being read exactly when it exists. -/
theorem GetValueSync_read_failure (pose : RTVector3 → RTVector3 → RTVector3) (obj : NodeIMU)
    (pressureData humidityData : RTIMU_DATA) :
    (obj.imu.IMURead.1 = false →
        obj.GetValueSync pose pressureData humidityData
          = (.returned .undefined, obj, [.IMURead]))
      ∧ ((∃ result, (obj.GetValueSync pose pressureData humidityData).1
            = .returned (.object result)) ↔ obj.imu.IMURead.1 = true)
      ∧ (obj.imu.IMURead.1 = true →
          obj.GetValueSync pose pressureData humidityData
            = (.returned (.object (PutMeasurement pose obj.imu.IMURead.2.getIMUData
                  obj.pressure.isSome
                  (match obj.pressure with
                    | some p => p.pressureRead pressureData
                    | none => pressureData)
                  obj.humidity.isSome
                  (match obj.humidity with
                    | some h => h.humidityRead humidityData
                    | none => humidityData) [])),
                { obj with imu := obj.imu.IMURead.2 },
                [.IMURead, .getIMUData]
                  ++ (if obj.pressure.isSome then [.pressureRead] else [])
                  ++ (if obj.humidity.isSome then [.humidityRead] else [])))
      ∧ (∀ d, obj.imu.sample = some d →
          obj.imu.IMURead.1 = true ∧ obj.imu.IMURead.2.getIMUData = d)
      ∧ (obj.imu.sample = none → obj.imu.IMURead.1 = false) := by
  refine ⟨GetValueSync_of_read_failed pose obj pressureData humidityData, ?_,
    GetValueSync_of_read_ok_full pose obj pressureData humidityData, ?_, ?_⟩
  · cases hr : obj.imu.IMURead.1 with
    | false =>
      rw [GetValueSync_of_read_failed pose obj pressureData humidityData hr]
      simp
    | true =>
      rw [GetValueSync_of_read_ok pose obj pressureData humidityData hr]
      simp
  · intro d hd
    simp [RTIMU.IMURead, RTIMU.getIMUData, hd]
  · intro hnone
    simp [RTIMU.IMURead, hnone]

/-- The synchronous read on `failingNode` returns `undefined` and changes nothing; on
`sampleNode` it returns the measurement built from `sampleData`, the reading of the pressure
sensor and the reading of the humidity sensor, after reading both sensors, and the sample the
IMU read stores is `sampleData`. -/
theorem GetValueSync_read_failure_witness :
    failingNode.GetValueSync samplePose staleData staleData
        = (.returned .undefined, failingNode, [.IMURead])
      ∧ (∃ result, (sampleNode.GetValueSync samplePose staleData staleData).1
          = .returned (.object result))
      ∧ sampleNode.GetValueSync samplePose staleData staleData
          = (.returned (.object (PutMeasurement samplePose sampleData true
                (samplePressure.pressureRead staleData) true
                (sampleHumidity.humidityRead staleData) [])),
              { sampleNode with imu := { sampleIMU with imuData := sampleData } },
              [.IMURead, .getIMUData, .pressureRead, .humidityRead])
      ∧ (sampleNode.imu.IMURead.1 = true ∧ sampleNode.imu.IMURead.2.getIMUData = sampleData)
      ∧ failingNode.imu.IMURead.1 = false :=
  ⟨(GetValueSync_read_failure samplePose failingNode staleData staleData).1 rfl,
    (GetValueSync_read_failure samplePose sampleNode staleData staleData).2.1.2 rfl,
    (GetValueSync_read_failure samplePose sampleNode staleData staleData).2.2.1 rfl,
    (GetValueSync_read_failure samplePose sampleNode staleData staleData).2.2.2.1
      sampleData rfl,
    (GetValueSync_read_failure samplePose failingNode staleData staleData).2.2.2.2 rfl⟩

/-- The asynchronous read when the IMU read fails: the callback still gets a null error and an
object, serialised from the record no read has written. -/
theorem GetValue_of_read_failed (put : RTIMU_DATA → Bool → Bool → JsObject → JsObject)
    (obj : NodeIMU) (d_imuData : RTIMU_DATA) (hfail : obj.imu.IMURead.1 = false) :
    obj.GetValue put d_imuData
      = ([.null, .object (put d_imuData obj.pressure.isSome obj.humidity.isSome [])], obj,
          [.IMURead]) := by
  obtain ⟨⟨ty, sl, g, a, c, sample, data⟩, pressure, humidity⟩ := obj
  cases sample with
  | none =>
    simp [NodeIMU.GetValue, SensorWorker.Execute, RTIMU.IMURead, SensorWorker.WorkComplete,
      SensorWorker.HandleOKCallback]
  | some d => simp [RTIMU.IMURead] at hfail

/-- The asynchronous read when the IMU read succeeds: the callback gets the serialisation of the
one record all three reads were written into. -/
theorem GetValue_of_read_ok (put : RTIMU_DATA → Bool → Bool → JsObject → JsObject)
    (obj : NodeIMU) (d_imuData : RTIMU_DATA) (hok : obj.imu.IMURead.1 = true) :
    (obj.GetValue put d_imuData).1
      = [.null, .object (put (asyncRecord obj) obj.pressure.isSome obj.humidity.isSome [])] := by
  obtain ⟨⟨ty, sl, g, a, c, sample, data⟩, pressure, humidity⟩ := obj
  cases sample with
  | none => simp [RTIMU.IMURead] at hok
  | some d =>
    cases pressure <;> cases humidity <;>
      simp [NodeIMU.GetValue, SensorWorker.Execute, asyncRecord, RTIMU.IMURead,
        SensorWorker.WorkComplete, SensorWorker.HandleOKCallback]

/-- The asynchronous read never reports an error: the first argument of the callback is null
and the second an object, whether or not the IMU read succeeded. -/
theorem GetValue_error_always_null (put : RTIMU_DATA → Bool → Bool → JsObject → JsObject)
    (obj : NodeIMU) (d_imuData : RTIMU_DATA) :
    ∃ result, (obj.GetValue put d_imuData).1 = [.null, .object result] := by
  cases hr : obj.imu.IMURead.1 with
  | false => exact ⟨_, by rw [GetValue_of_read_failed put obj d_imuData hr]⟩
  | true => exact ⟨_, GetValue_of_read_ok put obj d_imuData hr⟩

/-- With a humidity sensor present, the record the asynchronous read serialises does not depend
on the temperature of the pressure sensor: the humidity read has overwritten it. -/
theorem asyncRecord_forgets_pressure_temperature (imu : RTIMU) (p : RTPressure)
    (h : RTHumidity) (valid : Bool) (temperature : RTFLOAT) :
    asyncRecord ⟨imu, some ⟨p.pressureValid, p.pressure, valid, temperature⟩, some h⟩
      = asyncRecord ⟨imu, some p, some h⟩ := by
  simp [asyncRecord, RTPressure.pressureRead, RTHumidity.humidityRead]

/-- When at most one optional sensor exists, the asynchronous read that serialises its record
with `PutMeasurementOfRecord` delivers the object the synchronous read returns: a single sensor
read cannot overwrite another one. -/
theorem GetValue_agrees_with_sync_of_single_sensor
    (pose : RTVector3 → RTVector3 → RTVector3) (obj : NodeIMU)
    (d_imuData pressureData humidityData : RTIMU_DATA) (hok : obj.imu.IMURead.1 = true)
    (hone : obj.pressure = none ∨ obj.humidity = none) :
    ∃ result, (obj.GetValue (PutMeasurementOfRecord pose) d_imuData).1
        = [.null, .object result]
      ∧ (obj.GetValueSync pose pressureData humidityData).1 = .returned (.object result) := by
  refine ⟨_, GetValue_of_read_ok (PutMeasurementOfRecord pose) obj d_imuData hok, ?_⟩
  rw [GetValueSync_of_read_ok pose obj pressureData humidityData hok]
  obtain ⟨imu, pressure, humidity⟩ := obj
  rcases hone with h | h <;> simp only at h <;> subst h
  · cases humidity <;>
      simp [PutMeasurementOfRecord, PutMeasurement_nil, asyncRecord, RTHumidity.humidityRead]
  · cases pressure <;>
      simp [PutMeasurementOfRecord, PutMeasurement_nil, asyncRecord, RTPressure.pressureRead]

/-- Whatever function the four-argument call names, the asynchronous read cannot deliver the
object of the synchronous read on every sensor state: two states that differ in the temperature
of the pressure sensor alone leave the same record, but the synchronous read tells them
apart. -/
theorem single_record_cannot_match_sync (pose : RTVector3 → RTVector3 → RTVector3)
    (put : RTIMU_DATA → Bool → Bool → JsObject → JsObject) :
    ¬ ∀ obj : NodeIMU, obj.imu.IMURead.1 = true →
        ∃ result, (obj.GetValue put staleData).1 = [.null, .object result]
          ∧ (obj.GetValueSync pose staleData staleData).1 = .returned (.object result) := by
  intro hall
  obtain ⟨r₁, ha₁, hs₁⟩ := hall sampleNode rfl
  obtain ⟨r₂, ha₂, hs₂⟩ := hall warmNode rfl
  rw [GetValue_of_read_ok put sampleNode staleData rfl] at ha₁
  rw [GetValue_of_read_ok put warmNode staleData rfl] at ha₂
  have hrec : asyncRecord warmNode = asyncRecord sampleNode :=
    asyncRecord_forgets_pressure_temperature sampleIMU samplePressure sampleHumidity true 25
  rw [hrec] at ha₂
  have hr : r₁ = r₂ := by
    have h₁ : put (asyncRecord sampleNode) true true [] = r₁ := by simpa using ha₁
    have h₂ : put (asyncRecord sampleNode) true true [] = r₂ := by simpa using ha₂
    exact h₁.symm.trans h₂
  subst hr
  have heq := hs₁.trans hs₂.symm
  rw [GetValueSync_of_read_ok pose sampleNode staleData staleData rfl,
    GetValueSync_of_read_ok pose warmNode staleData staleData rfl, PutMeasurement_nil,
    PutMeasurement_nil] at heq
  simp [sampleNode, warmNode, samplePressure, RTPressure.pressureRead] at heq

/-- C5, the code at the failing input: the IMU read of `failingNode` fails, yet the callback of
the asynchronous read receives a null error together with an object, the serialisation of the
record no read has written, whatever function the call at line 102 names; serialised by
`PutMeasurementOfRecord`, its `accel.x` is the stale 9. -/
theorem GetValue_read_failure_delivers_measurement :
    failingNode.imu.IMURead.1 = false
      ∧ (∀ put : RTIMU_DATA → Bool → Bool → JsObject → JsObject,
          (failingNode.GetValue put staleData).1
            = [.null, .object (put staleData true true [])])
      ∧ getPath (PutMeasurementOfRecord samplePose staleData true true []) "accel" "x"
          = some (.number 9) := by
  refine ⟨rfl, ?_, ?_⟩
  · intro put
    rw [GetValue_of_read_failed put failingNode staleData rfl]
    rfl
  · unfold PutMeasurementOfRecord
    rw [PutMeasurement_nil]
    rfl

/-- C10, the code at the failing input: with both optional sensors present, a pressure sensor
at 20 degrees and a humidity sensor at 30 degrees, the asynchronous read, serialising its one
record with `PutMeasurementOfRecord`, delivers `pressureTemperature` 30, the temperature of the
humidity sensor, where the synchronous read returns 20; `humidityTemperature` is 30 on both
paths. -/
theorem GetValue_pressureTemperature_differs_from_sync :
    sampleNode.imu.IMURead.1 = true
      ∧ (∃ result, (sampleNode.GetValue (PutMeasurementOfRecord samplePose) staleData).1
            = [.null, .object result]
          ∧ Nan.Get result "pressureTemperature" = some (.number 30)
          ∧ Nan.Get result "humidityTemperature" = some (.number 30))
      ∧ (∃ result, (sampleNode.GetValueSync samplePose staleData staleData).1
            = .returned (.object result)
          ∧ Nan.Get result "pressureTemperature" = some (.number 20)
          ∧ Nan.Get result "humidityTemperature" = some (.number 30)) := by
  refine ⟨rfl,
    ⟨_, GetValue_of_read_ok (PutMeasurementOfRecord samplePose) sampleNode staleData rfl,
      ?_, ?_⟩,
    ⟨_, GetValueSync_of_read_ok samplePose sampleNode staleData staleData rfl, ?_, ?_⟩⟩
  · unfold PutMeasurementOfRecord
    rw [PutMeasurement_nil]
    rfl
  · unfold PutMeasurementOfRecord
    rw [PutMeasurement_nil]
    rfl
  · rw [PutMeasurement_nil]
    rfl
  · rw [PutMeasurement_nil]
    rfl

/-! ## The timestamp: proofs -/

theorem bitLengthAux_spec (n : Nat) : ∀ fuel k : Nat, n < 2 ^ (k + fuel) →
    (∀ j, j < k → 2 ^ j ≤ n) →
    n < 2 ^ bitLengthAux n fuel k ∧ ∀ j, j < bitLengthAux n fuel k → 2 ^ j ≤ n := by
  intro fuel
  induction fuel with
  | zero =>
    intro k hlt hge
    exact ⟨by simpa [bitLengthAux] using hlt, by simpa [bitLengthAux] using hge⟩
  | succ fuel ih =>
    intro k hlt hge
    unfold bitLengthAux
    by_cases hk : n < 2 ^ k
    · rw [if_pos hk]
      exact ⟨hk, hge⟩
    · rw [if_neg hk]
      apply ih (k + 1)
      · have : k + 1 + fuel = k + (fuel + 1) := by omega
        rw [this]
        exact hlt
      · intro j hj
        rcases Nat.lt_succ_iff_lt_or_eq.mp hj with h | h
        · exact hge j h
        · subst h
          exact Nat.le_of_not_lt hk

/-- The number `bitLength n` is the least exponent whose power of two exceeds `n`. -/
theorem bitLength_spec (n : Nat) :
    n < 2 ^ bitLength n ∧ ∀ j, j < bitLength n → 2 ^ j ≤ n := by
  apply bitLengthAux_spec n n 0
  · simpa using Nat.lt_two_pow n
  · intro j hj
    exact absurd hj (Nat.not_lt_zero j)

theorem lt_two_pow_bitLength (n : Nat) : n < 2 ^ bitLength n := (bitLength_spec n).1

theorem bitLength_le_iff (n k : Nat) : bitLength n ≤ k ↔ n < 2 ^ k := by
  constructor
  · intro h
    exact lt_of_lt_of_le (lt_two_pow_bitLength n) (Nat.pow_le_pow_right (by decide) h)
  · intro h
    by_contra hc
    have := (bitLength_spec n).2 k (Nat.lt_of_not_le hc)
    omega

theorem two_pow_le_of_lt_bitLength (n j : Nat) (h : j < bitLength n) : 2 ^ j ≤ n :=
  (bitLength_spec n).2 j h

theorem bitLength_mono {a b : Nat} (h : a ≤ b) : bitLength a ≤ bitLength b := by
  rw [bitLength_le_iff]
  exact lt_of_le_of_lt h (lt_two_pow_bitLength b)

theorem bitLength_mul_two_pow (n k : Nat) (hn : 0 < n) :
    bitLength (n * 2 ^ k) = bitLength n + k := by
  apply le_antisymm
  · rw [bitLength_le_iff, pow_add]
    exact Nat.mul_lt_mul_of_pos_right (lt_two_pow_bitLength n) (by positivity)
  · by_contra hc
    have hlt : bitLength (n * 2 ^ k) ≤ bitLength n + k - 1 := by omega
    rw [bitLength_le_iff] at hlt
    have hpos : 0 < bitLength n := by
      by_contra h0
      have : bitLength n ≤ 0 := by omega
      rw [bitLength_le_iff] at this
      simp at this
      omega
    have h1 : 2 ^ (bitLength n - 1) ≤ n :=
      two_pow_le_of_lt_bitLength n _ (by omega)
    have h2 : 2 ^ (bitLength n + k - 1) = 2 ^ (bitLength n - 1) * 2 ^ k := by
      rw [← pow_add]
      congr 1
      omega
    rw [h2] at hlt
    have := Nat.mul_le_mul_right (2 ^ k) h1
    omega

theorem roundNearestEven_zero (n : Nat) : roundNearestEven n 0 = n := by
  simp [roundNearestEven, Nat.mod_one]

theorem div_le_roundNearestEven (n s : Nat) : n / 2 ^ s ≤ roundNearestEven n s := by
  unfold roundNearestEven
  simp only
  split_ifs <;> omega

theorem roundNearestEven_le_succ (n s : Nat) : roundNearestEven n s ≤ n / 2 ^ s + 1 := by
  unfold roundNearestEven
  simp only
  split_ifs <;> omega

/-- Rounding to nearest even is monotone in the number rounded. -/
theorem roundNearestEven_mono {a b : Nat} (s : Nat) (h : a ≤ b) :
    roundNearestEven a s ≤ roundNearestEven b s := by
  have hq : a / 2 ^ s ≤ b / 2 ^ s := Nat.div_le_div_right h
  rcases Nat.lt_or_eq_of_le hq with hlt | heq
  · calc roundNearestEven a s ≤ a / 2 ^ s + 1 := roundNearestEven_le_succ a s
      _ ≤ b / 2 ^ s := hlt
      _ ≤ roundNearestEven b s := div_le_roundNearestEven b s
  · have ha := Nat.div_add_mod a (2 ^ s)
    have hb := Nat.div_add_mod b (2 ^ s)
    rw [heq] at ha
    have hr : a % 2 ^ s ≤ b % 2 ^ s := by omega
    unfold roundNearestEven
    simp only
    rw [heq]
    split_ifs <;> omega

theorem roundNearestEven_mul_two_pow (n s : Nat) : roundNearestEven (n * 2 ^ s) s = n := by
  have hpos : 0 < 2 ^ s := by positivity
  unfold roundNearestEven
  simp only
  rw [Nat.mul_mod_left, Nat.mul_div_cancel _ hpos]
  simp [hpos]

theorem roundNearestEven_scale (n s k : Nat) :
    roundNearestEven (n * 2 ^ k) (s + k) = roundNearestEven n s := by
  have hk : 0 < 2 ^ k := by positivity
  have hdiv : n * 2 ^ k / 2 ^ (s + k) = n / 2 ^ s := by
    rw [pow_add, Nat.mul_div_mul_right _ _ hk]
  have hmod : n * 2 ^ k % 2 ^ (s + k) = n % 2 ^ s * 2 ^ k := by
    rw [pow_add, Nat.mul_mod_mul_right]
  unfold roundNearestEven
  simp only
  rw [hdiv, hmod, pow_add]
  have e1 : (2 * (n % 2 ^ s * 2 ^ k) < 2 ^ s * 2 ^ k) ↔ (2 * (n % 2 ^ s) < 2 ^ s) := by
    rw [← Nat.mul_assoc]
    exact Nat.mul_lt_mul_right hk
  have e2 : (2 ^ s * 2 ^ k < 2 * (n % 2 ^ s * 2 ^ k)) ↔ (2 ^ s < 2 * (n % 2 ^ s)) := by
    rw [← Nat.mul_assoc]
    exact Nat.mul_lt_mul_right hk
  simp only [e1, e2]

theorem val53_of_bitLength_le {n : Nat} (h : bitLength n ≤ 53) : val53 n = n := by
  have hs : bitLength n - 53 = 0 := by omega
  simp [val53, hs, roundNearestEven_zero]

theorem val53_of_lt {n : Nat} (h : n < 2 ^ 53) : val53 n = n :=
  val53_of_bitLength_le ((bitLength_le_iff n 53).2 h)

theorem val53_le_two_pow (n : Nat) : val53 n ≤ 2 ^ bitLength n := by
  by_cases h : bitLength n ≤ 53
  · rw [val53_of_bitLength_le h]
    exact le_of_lt (lt_two_pow_bitLength n)
  · have hb : bitLength n = 53 + (bitLength n - 53) := by omega
    have hlt : n < 2 ^ 53 * 2 ^ (bitLength n - 53) := by
      rw [← pow_add, ← hb]
      exact lt_two_pow_bitLength n
    have hq : n / 2 ^ (bitLength n - 53) < 2 ^ 53 :=
      Nat.div_lt_of_lt_mul (by rw [Nat.mul_comm]; exact hlt)
    have hr := roundNearestEven_le_succ n (bitLength n - 53)
    have : roundNearestEven n (bitLength n - 53) ≤ 2 ^ 53 := by omega
    calc val53 n = roundNearestEven n (bitLength n - 53) * 2 ^ (bitLength n - 53) := rfl
      _ ≤ 2 ^ 53 * 2 ^ (bitLength n - 53) := Nat.mul_le_mul_right _ this
      _ = 2 ^ bitLength n := by rw [← pow_add, ← hb]

theorem two_pow_le_val53 {n : Nat} (h : 53 < bitLength n) :
    2 ^ (bitLength n - 1) ≤ val53 n := by
  have hb : bitLength n - 1 = 52 + (bitLength n - 53) := by omega
  have hge : 2 ^ (bitLength n - 1) ≤ n := two_pow_le_of_lt_bitLength n _ (by omega)
  have hq : 2 ^ 52 ≤ n / 2 ^ (bitLength n - 53) := by
    rw [Nat.le_div_iff_mul_le (by positivity), ← pow_add, ← hb]
    exact hge
  have hr := div_le_roundNearestEven n (bitLength n - 53)
  calc 2 ^ (bitLength n - 1) = 2 ^ 52 * 2 ^ (bitLength n - 53) := by rw [hb, pow_add]
    _ ≤ roundNearestEven n (bitLength n - 53) * 2 ^ (bitLength n - 53) :=
        Nat.mul_le_mul_right _ (le_trans hq hr)

/-- Rounding to 53 significant bits is monotone, also across a change of exponent. -/
theorem val53_mono {a b : Nat} (h : a ≤ b) : val53 a ≤ val53 b := by
  have hbl := bitLength_mono h
  rcases Nat.lt_or_eq_of_le hbl with hlt | heq
  · by_cases hb : bitLength b ≤ 53
    · rw [val53_of_bitLength_le hb, val53_of_bitLength_le (by omega)]
      exact h
    · calc val53 a ≤ 2 ^ bitLength a := val53_le_two_pow a
        _ ≤ 2 ^ (bitLength b - 1) := Nat.pow_le_pow_right (by decide) (by omega)
        _ ≤ val53 b := two_pow_le_val53 (by omega)
  · unfold val53
    rw [heq]
    exact Nat.mul_le_mul_right _ (roundNearestEven_mono _ h)

/-- Rounding to 53 significant bits commutes with scaling by a power of two. -/
theorem val53_mul_two_pow (n k : Nat) : val53 (n * 2 ^ k) = val53 n * 2 ^ k := by
  rcases Nat.eq_zero_or_pos n with h0 | hpos
  · subst h0
    have : val53 0 = 0 := val53_of_lt (by positivity)
    simp [this]
  · have hbl := bitLength_mul_two_pow n k hpos
    by_cases h : 53 ≤ bitLength n
    · have hs : bitLength (n * 2 ^ k) - 53 = (bitLength n - 53) + k := by omega
      unfold val53
      rw [hs, roundNearestEven_scale, pow_add, Nat.mul_assoc]
    · have hle : bitLength (n * 2 ^ k) - 53 ≤ k := by omega
      have hn : val53 n = n := val53_of_bitLength_le (by omega)
      rw [hn]
      unfold val53
      generalize bitLength (n * 2 ^ k) - 53 = s at hle
      obtain ⟨j, hj⟩ : ∃ j, k = j + s := ⟨k - s, by omega⟩
      have hsplit : n * 2 ^ k = (n * 2 ^ j) * 2 ^ s := by
        rw [Nat.mul_assoc, ← pow_add, ← hj]
      rw [hsplit, roundNearestEven_mul_two_pow]

/-- Comparison and integer part of the double `m * 2 ^ (k - 62)`, in units of `2 ^ -62`. -/
theorem Double_leNat_floor (m k bound : Nat) :
    (Double.mk m ((k : Int) - 62)).leNat bound = decide (m * 2 ^ k ≤ bound * 2 ^ 62)
      ∧ (Double.mk m ((k : Int) - 62)).floor = m * 2 ^ k / 2 ^ 62 := by
  have h62 : 0 < 2 ^ 62 := by positivity
  by_cases h : 62 ≤ k
  · obtain ⟨a, rfl⟩ : ∃ a, k = a + 62 := ⟨k - 62, by omega⟩
    have he : ((a + 62 : Nat) : Int) - 62 = Int.ofNat a := by
      simp
    rw [he]
    constructor
    · simp only [Double.leNat]
      rw [pow_add, ← Nat.mul_assoc]
      congr 1
      exact propext (mul_le_mul_right h62).symm
    · simp only [Double.floor]
      rw [pow_add, ← Nat.mul_assoc, Nat.mul_div_cancel _ h62]
  · obtain ⟨a, ha⟩ : ∃ a, 62 = k + (a + 1) := ⟨61 - k, by omega⟩
    have he : (k : Int) - 62 = Int.negSucc a := by
      rw [Int.negSucc_eq]
      omega
    have hk : 0 < 2 ^ k := by positivity
    have hp : 2 ^ 62 = 2 ^ (a + 1) * 2 ^ k := by
      rw [← pow_add]
      congr 1
      omega
    rw [he]
    constructor
    · simp only [Double.leNat]
      rw [hp, ← Nat.mul_assoc]
      congr 1
      exact propext (mul_le_mul_right hk).symm
    · simp only [Double.floor]
      rw [hp, Nat.mul_div_mul_right _ _ hk]

/-- The time value in closed form: both roundings of `0.001 * (double)t` as roundings of whole
numbers, in units of `2 ^ -62`. -/
theorem timestampMs_eq (t : Nat) :
    timestampMs t
      = if val53 (4611686018427388 * val53 t) ≤ 8640000000000000 * 2 ^ 62 then
          some (val53 (4611686018427388 * val53 t) / 2 ^ 62)
        else none := by
  have hval : roundNearestEven (4611686018427388 * roundNearestEven t (bitLength t - 53))
        (bitLength (4611686018427388 * roundNearestEven t (bitLength t - 53)) - 53)
        * 2 ^ ((bitLength t - 53)
          + (bitLength (4611686018427388 * roundNearestEven t (bitLength t - 53)) - 53))
      = val53 (4611686018427388 * val53 t) := by
    have h1 : 4611686018427388 * val53 t
        = (4611686018427388 * roundNearestEven t (bitLength t - 53)) * 2 ^ (bitLength t - 53) := by
      unfold val53
      rw [Nat.mul_assoc]
    rw [h1, val53_mul_two_pow]
    unfold val53
    rw [Nat.mul_assoc, ← pow_add, Nat.add_comm]
  have hexp : (-62 : Int) + (0 + ((bitLength t - 53 : Nat) : Int))
        + ((bitLength (4611686018427388 * roundNearestEven t (bitLength t - 53)) - 53 : Nat) : Int)
      = (((bitLength t - 53)
          + (bitLength (4611686018427388 * roundNearestEven t (bitLength t - 53)) - 53) : Nat) : Int)
          - 62 := by
    push_cast
    ring
  unfold timestampMs TimeClip Double.mul Double.ofUInt64 Double.round Double.lit_0_001
  simp only
  rw [hexp, (Double_leNat_floor _ _ 8640000000000000).1, (Double_leNat_floor _ _ 0).2, hval]
  simp

/-- The conversion is monotone, and a valid date for the later timestamp makes the earlier one
valid. -/
theorem timestampMs_mono {t₁ t₂ v₂ : Nat} (h : t₁ ≤ t₂) (hv : timestampMs t₂ = some v₂) :
    ∃ v₁, timestampMs t₁ = some v₁ ∧ v₁ ≤ v₂ := by
  have hV : val53 (4611686018427388 * val53 t₁) ≤ val53 (4611686018427388 * val53 t₂) :=
    val53_mono (Nat.mul_le_mul_left _ (val53_mono h))
  rw [timestampMs_eq] at hv ⊢
  split_ifs at hv with h2
  rw [if_pos (le_trans hV h2)]
  refine ⟨_, rfl, ?_⟩
  cases hv
  exact Nat.div_le_div_right hV

theorem val53_mul_two_pow_of_lt {n : Nat} (k : Nat) (h : n < 2 ^ 53) :
    val53 (n * 2 ^ k) = n * 2 ^ k := by
  rw [val53_mul_two_pow, val53_of_lt h]

/-- Below `2 ^ 42 * 1000` microseconds the time value is the integer quotient by 1000: the
product lies between the doubles `(t / 1000) * 2 ^ 62` and `(t / 1000 + 1) * 2 ^ 62 - 2 ^ 51`
in units of `2 ^ -62`, and rounding cannot leave that interval. -/
theorem timestampMs_exact {t : Nat} (h : t < 4398046511104000) :
    timestampMs t = some (t / 1000) := by
  have ht : val53 t = t := val53_of_lt (lt_trans h (by norm_num))
  have hlow : (t / 1000) * 2 ^ 62 ≤ val53 (4611686018427388 * t) := by
    rw [← val53_mul_two_pow_of_lt 62 (show t / 1000 < 2 ^ 53 by omega)]
    apply val53_mono
    omega
  have hhigh : val53 (4611686018427388 * t) ≤ ((t / 1000 + 1) * 2 ^ 11 - 1) * 2 ^ 51 := by
    rw [← val53_mul_two_pow_of_lt 51 (show (t / 1000 + 1) * 2 ^ 11 - 1 < 2 ^ 53 by omega)]
    apply val53_mono
    omega
  have hlt : val53 (4611686018427388 * t) < (t / 1000 + 1) * 2 ^ 62 := by omega
  rw [timestampMs_eq, ht, if_pos (by omega)]
  congr 1
  apply Nat.div_eq_of_lt_le
  · exact hlow
  · exact hlt

/-- Rounding to 53 significant bits changes a number by at most its `2 ^ 53`-th part. -/
theorem val53_error (n : Nat) :
    9007199254740992 * val53 n ≤ 9007199254740993 * n
      ∧ 9007199254740991 * n ≤ 9007199254740992 * val53 n := by
  by_cases h : bitLength n ≤ 53
  · rw [val53_of_bitLength_le h]
    omega
  · have hb : bitLength n - 1 = 52 + (bitLength n - 53) := by omega
    have hge : 2 ^ (bitLength n - 1) ≤ n := two_pow_le_of_lt_bitLength n _ (by omega)
    rw [hb, pow_add] at hge
    have hdm := Nat.div_add_mod n (2 ^ (bitLength n - 53))
    have hrlt : n % 2 ^ (bitLength n - 53) < 2 ^ (bitLength n - 53) :=
      Nat.mod_lt _ (by positivity)
    unfold val53 roundNearestEven
    simp only
    generalize n / 2 ^ (bitLength n - 53) = q at *
    generalize n % 2 ^ (bitLength n - 53) = r at *
    generalize 2 ^ (bitLength n - 53) = P at *
    have h52 : (2 : Nat) ^ 52 = 4503599627370496 := by norm_num
    rw [h52] at hge
    have hsucc : (q + 1) * P = P * q + P := by ring
    have hcomm : q * P = P * q := Nat.mul_comm q P
    split_ifs <;> simp only [hsucc, hcomm] <;> omega

/-- A valid time value is within 3 of the thousandth of the timestamp. -/
theorem timestampMs_near {t v : Nat} (hv : timestampMs t = some v) :
    1000 * v ≤ t + 2100 ∧ t ≤ 1000 * v + 2745 := by
  rw [timestampMs_eq] at hv
  split_ifs at hv with hle
  cases hv
  have h1 := val53_error t
  have h2 := val53_error (4611686018427388 * val53 t)
  have h62 : (2 : Nat) ^ 62 = 4611686018427387904 := by norm_num
  rw [h62] at hle ⊢
  generalize val53 (4611686018427388 * val53 t) = V at *
  generalize val53 t = x at *
  omega

/-- The last day a `Date` can hold is reached at 8640000000000000000 microseconds. -/
theorem timestampMs_max : timestampMs 8640000000000000000 = some 8640000000000000 := by
  decide

/-- The `timestamp` property `PutMeasurement` writes. -/
theorem PutMeasurement_get_timestamp (pose : RTVector3 → RTVector3 → RTVector3)
    (d pd hd : RTIMU_DATA) (p h : Bool) :
    Nan.Get (PutMeasurement pose d p pd h hd []) "timestamp"
      = some (.date (timestampMs d.timestamp)) := by
  rw [PutMeasurement_nil]
  rfl

/-- C8 as stated fails: a record with the timestamp 1500 microseconds is given the date whose
time value is 1 millisecond, and 1 is not 1500/1000. -/
theorem timestamp_is_not_the_exact_quotient :
    Nan.Get (PutMeasurement samplePose { sampleData with timestamp := 1500 } false staleData
        false staleData []) "timestamp" = some (.date (some 1))
      ∧ ((1 : Nat) : ℚ) ≠ (1500 : ℚ) / 1000 := by
  refine ⟨?_, by norm_num⟩
  rw [PutMeasurement_get_timestamp]
  have h : timestampMs 1500 = some 1 := by decide
  exact congrArg (fun time => some (JsValue.date time)) h

/-- C8 as amended: for every IMU data record with timestamp `t` in microseconds, the `timestamp`
written by `PutMeasurement` is the date whose time value is the double product
`0.001 * (double)t` cut to a whole number of milliseconds (an invalid date once the product
exceeds 8.64e15).  For `t` below 4398046511104000 that value is the integer quotient of `t` by
1000, which is `t / 1000` only when 1000 divides `t`; for every `t` with a valid date it differs
from `t / 1000` by less than 3; every `t` up to 8640000000000000000 has a valid date; and the
conversion is monotone: when `t₁ ≤ t₂` and the date of `t₂` is valid, the date of `t₁` is valid
and its value is at most that of `t₂`. -/
theorem PutMeasurement_timestamp (pose : RTVector3 → RTVector3 → RTVector3)
    (d pd hd : RTIMU_DATA) (p h : Bool) :
    Nan.Get (PutMeasurement pose d p pd h hd []) "timestamp"
        = some (.date (timestampMs d.timestamp))
      ∧ (d.timestamp < 4398046511104000 →
          timestampMs d.timestamp = some (d.timestamp / 1000))
      ∧ (∀ v, timestampMs d.timestamp = some v →
          1000 * v ≤ d.timestamp + 2100 ∧ d.timestamp ≤ 1000 * v + 2745)
      ∧ (d.timestamp ≤ 8640000000000000000 → ∃ v, timestampMs d.timestamp = some v)
      ∧ (∀ (d₂ pd₂ hd₂ : RTIMU_DATA) (p₂ h₂ : Bool) (v₂ : Nat),
          d.timestamp ≤ d₂.timestamp →
          Nan.Get (PutMeasurement pose d₂ p₂ pd₂ h₂ hd₂ []) "timestamp"
            = some (.date (some v₂)) →
          ∃ v, Nan.Get (PutMeasurement pose d p pd h hd []) "timestamp"
              = some (.date (some v)) ∧ v ≤ v₂) := by
  refine ⟨PutMeasurement_get_timestamp pose d pd hd p h, timestampMs_exact,
    fun v hv => timestampMs_near hv, ?_, ?_⟩
  · intro hle
    obtain ⟨v, hv, _⟩ := timestampMs_mono hle timestampMs_max
    exact ⟨v, hv⟩
  · intro d₂ pd₂ hd₂ p₂ h₂ v₂ hle hget
    rw [PutMeasurement_get_timestamp] at hget
    have hv₂ : timestampMs d₂.timestamp = some v₂ := by
      simpa using hget
    obtain ⟨v, hv, hvle⟩ := timestampMs_mono hle hv₂
    exact ⟨v, by rw [PutMeasurement_get_timestamp, hv], hvle⟩

/-- The timestamp 1500000 of `sampleData` is given the time value 1500; it has a valid date; and
against the later timestamp 1500999, whose time value is 1500 too, it is not greater. -/
theorem PutMeasurement_timestamp_witness :
    timestampMs sampleData.timestamp = some (sampleData.timestamp / 1000)
      ∧ (1000 * 1500 ≤ sampleData.timestamp + 2100 ∧ sampleData.timestamp ≤ 1000 * 1500 + 2745)
      ∧ (∃ v, timestampMs sampleData.timestamp = some v)
      ∧ (∃ v, Nan.Get (PutMeasurement samplePose sampleData true staleData false staleData [])
            "timestamp" = some (.date (some v)) ∧ v ≤ 1500) :=
  ⟨(PutMeasurement_timestamp samplePose sampleData staleData staleData true false).2.1
      (by decide),
    (PutMeasurement_timestamp samplePose sampleData staleData staleData true false).2.2.1
      1500 (by decide),
    (PutMeasurement_timestamp samplePose sampleData staleData staleData true false).2.2.2.1
      (by decide),
    (PutMeasurement_timestamp samplePose sampleData staleData staleData true false).2.2.2.2
      { sampleData with timestamp := 1500999 } staleData staleData false false 1500
      (by decide)
      ((PutMeasurement_get_timestamp samplePose { sampleData with timestamp := 1500999 }
          staleData staleData false false).trans
        (congrArg (fun time => some (JsValue.date time))
          (show timestampMs 1500999 = some 1500 by decide)))⟩

end Nodeimu
